import Mathlib

/-!
# Verification of the GDG-Medan donation backend

Shallow embedding of the donation-lifecycle logic of the GDG donation
website (Cloudflare Pages Functions over a D1/SQLite store), together
with proofs about it.  The embedded pieces are:

* the relational rows (`Donation`, `Disbursement`) from `schema.sql`;
* the statistics aggregation `handleStats` (functions/routes/donations.js);
* the paginated public feeds `handleGetDonations` and
  `handleGetDisbursementsPublic`, including the JavaScript
  `parseInt(x) || default` query-parameter handling;
* the donation-creation handler `handleCreateDonation` (which currently
  returns a fixed "donations closed" validation error before any other
  statement runs) and, separately, the now-unreachable remainder of its
  body including validation, fee computation and the gateway call;
* the Midtrans webhook handler `handleMidtransWebhook`;
* the router's response post-processing (request-id header and body
  injection) from functions/api/[[path]].js.

JavaScript numbers are modelled as `Int` where the code only ever handles
integral values (amounts, pagination parameters); `Math.ceil(a * 0.007)`
is modelled in exact rational arithmetic.  Fallible steps (JSON parsing,
the gateway call, database failures) are modelled by `Option`/explicit
failure parameters.
-/

set_option autoImplicit false

namespace Spec2Proof

/-! ## JSON values and JavaScript helpers -/

/-- A JSON value, as produced by `JSON.parse` / consumed by
`JSON.stringify`.  Numbers are restricted to integers, which covers every
value this backend serialises. -/
inductive Json where
  | null : Json
  | bool (b : Bool) : Json
  | num (n : Int) : Json
  | str (s : String) : Json
  | arr (xs : List Json) : Json
  | obj (fields : List (String × Json)) : Json

/-- JavaScript truthiness of an optional string field
(`undefined`/`null` and the empty string are falsy). -/
def truthyStr : Option String → Bool
  | none => false
  | some s => s ≠ ""

/-- JavaScript truthiness of an optional numeric field
(`undefined`/`null` and `0` are falsy). -/
def truthyInt : Option Int → Bool
  | none => false
  | some n => n ≠ 0

/-- The result of running `parseInt` on a query-string parameter:
the parameter is absent (`parseInt(null)` is `NaN`), does not start with
a digit (`NaN` again), or yields an integer. -/
inductive QueryParam where
  | absent : QueryParam
  | nonNumeric : QueryParam
  | num (n : Int) : QueryParam
  deriving DecidableEq

/-- Model of `parseInt(url.searchParams.get(k)) || d`: `NaN` and `0` are falsy, so
an absent, non-numeric or zero parameter is replaced by the default `d`. -/
def jsParseIntOr (q : QueryParam) (d : Int) : Int :=
  match q with
  | .absent => d
  | .nonNumeric => d
  | .num n => if n = 0 then d else n

/-- Integer model of `Math.ceil(a / b)`, exact for `b > 0`
(with `/` the floor division used on `Int`). -/
def mathCeilDiv (a b : Int) : Int := -((-a) / b)

/-! ## Data model (schema.sql) -/

/-- A row of the `donations` table. -/
structure Donation where
  name : String
  email : String
  phone : Option String
  amount : Int
  message : Option String
  /-- stored as `INTEGER DEFAULT 0`; JavaScript tests it for truthiness -/
  anonymous : Int
  status : String
  midtrans_order_id : Option String
  created_at : String
  deriving DecidableEq

/-- A row of the `disbursements` table. -/
structure Disbursement where
  id : Int
  amount : Int
  description : String
  created_at : String
  deriving DecidableEq

/-! ## Statistics (`handleStats`, functions/routes/donations.js) -/

/-- Query `SELECT COALESCE(SUM(amount), 0) as total FROM donations WHERE status = ?`. -/
def sqlSumAmountWhereStatus (st : String) (db : List Donation) : Int :=
  ((db.filter fun d => d.status = st).map fun d => d.amount).sum

/-- Query `SELECT COUNT(*) as count FROM donations WHERE status = ?`. -/
def sqlCountWhereStatus (st : String) (db : List Donation) : Int :=
  ((db.filter fun d => d.status = st).length : Int)

/-- Query `SELECT COALESCE(SUM(amount), 0) as total FROM disbursements`. -/
def sqlSumDisbursements (ds : List Disbursement) : Int :=
  (ds.map fun d => d.amount).sum

/-- JavaScript `x || 0` applied to an integer (`0` is falsy, every other integer is
truthy, so on integers this is the identity). -/
def jsOrZero (x : Int) : Int := if x = 0 then 0 else x

/-- Body of the `GET /api/stats` response. -/
structure StatsBody where
  total_raised : Int
  total_disbursed : Int
  donor_count : Int
  deriving DecidableEq

/-- Handler `handleStats`: three independent aggregate queries, each wrapped in
`result?.total || 0` (resp. `result?.count || 0`). -/
def handleStats (db : List Donation) (ds : List Disbursement) : StatsBody :=
  { total_raised := jsOrZero (sqlSumAmountWhereStatus "success" db)
    total_disbursed := jsOrZero (sqlSumDisbursements ds)
    donor_count := jsOrZero (sqlCountWhereStatus "success" db) }

/-! ## Midtrans webhook (`handleMidtransWebhook`) -/

/-- The fields of a Midtrans notification the webhook handler reads. -/
structure MidtransNotification where
  order_id : String
  transaction_status : String
  fraud_status : String
  deriving DecidableEq

/-- Query `UPDATE donations SET status = ? WHERE midtrans_order_id = ?`. -/
def updateStatusByOrderId (st orderId : String) (db : List Donation) : List Donation :=
  db.map fun d =>
    if d.midtrans_order_id = some orderId then { d with status := st } else d

/-- The database transition performed by `handleMidtransWebhook` for a
successfully parsed notification (donations.js lines 410-445). -/
def applyWebhook (n : MidtransNotification) (db : List Donation) : List Donation :=
  if n.fraud_status = "accept" then
    if n.transaction_status = "capture" ∨ n.transaction_status = "settlement" then
      updateStatusByOrderId "success" n.order_id db
    else if n.transaction_status = "cancel" ∨ n.transaction_status = "deny" ∨
        n.transaction_status = "expire" then
      updateStatusByOrderId "failed" n.order_id db
    else db
  else db

/-- A webhook request as seen by the handler: either the JSON body fails
to parse (`request.json()` throws) or it yields a notification. -/
inductive WebhookRequest where
  | malformed : WebhookRequest
  | ok (n : MidtransNotification) : WebhookRequest

/-- Handler `handleMidtransWebhook`: returns the HTTP status code and the new
database state.  `dbThrows` models the database update raising an
exception, which the `catch` block swallows. -/
def handleMidtransWebhook (req : WebhookRequest) (db : List Donation)
    (dbThrows : Bool) : Nat × List Donation :=
  match req with
  | .malformed => (200, db)
  | .ok n => if dbThrows then (200, db) else (200, applyWebhook n db)

/-! ## Validation and sanitisation utilities (functions/utils/validation.js) -/

/-- ASCII letter or digit (the `[a-zA-Z0-9]` character class). -/
def isAsciiAlnum (c : Char) : Bool :=
  (('a' ≤ c ∧ c ≤ 'z') ∨ ('A' ≤ c ∧ c ≤ 'Z') ∨ ('0' ≤ c ∧ c ≤ '9') : Bool)

/-- A character of the local part of an email address, per the character
class of the regex in `isValidEmail`. -/
def isEmailLocalChar (c : Char) : Bool :=
  isAsciiAlnum c || "!#$%&'*+/=?^_`\x7b|\x7d~.-".contains c

/-- Split a character list on a separator character (every occurrence
separates, so `n` separators give `n + 1` parts). -/
def splitChar (sep : Char) (l : List Char) : List (List Char) :=
  l.foldr
    (fun c acc =>
      match acc with
      | [] => [[c]]
      | g :: gs => if c = sep then [] :: g :: gs else (c :: g) :: gs)
    [[]]

/-- A domain label, per `[a-zA-Z0-9](?:[a-zA-Z0-9-]{0,61}[a-zA-Z0-9])?`:
1 to 63 characters, first and last alphanumeric, interior alphanumeric or
hyphen. -/
def isValidDomainLabel (l : List Char) : Bool :=
  match l with
  | [] => false
  | [c] => isAsciiAlnum c
  | c :: rest =>
    isAsciiAlnum c && l.length ≤ 63 &&
      (rest.dropLast.all fun m => isAsciiAlnum m || m = '-') &&
      (match rest.getLast? with
       | some z => isAsciiAlnum z
       | none => false)

/-- Validator `isValidEmail`: length at most 254 and a match of the regex
`^[local]+@label(\.label)*$`. -/
def isValidEmail (email : String) : Bool :=
  if email.length > 254 then false
  else
    match splitChar '@' email.toList with
    | [localPart, domain] =>
      localPart ≠ [] && localPart.all isEmailLocalChar &&
        (splitChar '.' domain).all isValidDomainLabel
    | _ => false

/-- ASCII digit (the `[0-9]` character class). -/
def isAsciiDigit (c : Char) : Bool := ('0' ≤ c ∧ c ≤ '9' : Bool)

/-- Validator `isValidPhone`: strip whitespace, dashes and plus signs, then require
`^(62|0)[0-9]{9,12}$`, and additionally that the digit following the
`62` or `0` prefix is an `8`. -/
def isValidPhone (phone : String) : Bool :=
  let cleaned := phone.toList.filter fun c => ¬ (c.isWhitespace ∨ c = '-' ∨ c = '+')
  match cleaned with
  | '6' :: '2' :: rest =>
    (9 ≤ rest.length && rest.length ≤ 12) && rest.all isAsciiDigit &&
      (match rest with
       | d :: _ => d = '8'
       | [] => false)
  | '0' :: rest =>
    (9 ≤ rest.length && rest.length ≤ 12) && rest.all isAsciiDigit &&
      (match rest with
       | d :: _ => d = '8'
       | [] => false)
  | _ => false

/-- JavaScript `String.prototype.trim()`: remove leading and trailing
whitespace. -/
def jsTrim (l : List Char) : List Char :=
  ((l.dropWhile Char.isWhitespace).reverse.dropWhile Char.isWhitespace).reverse

/-- A control character stripped by `sanitizeText`
(`[\x00-\x08\x0B-\x0C\x0E-\x1F\x7F]`). -/
def isStrippedControl (c : Char) : Bool :=
  (c.toNat ≤ 0x08 ∨ (0x0B ≤ c.toNat ∧ c.toNat ≤ 0x0C) ∨
    (0x0E ≤ c.toNat ∧ c.toNat ≤ 0x1F) ∨ c.toNat = 0x7F : Bool)

/-- Sanitizer `sanitizeText`: drop control characters, cap the length, trim. -/
def sanitizeText (input : String) (maxLength : Nat) : String :=
  ⟨jsTrim (((input.toList.filter fun c => ¬ isStrippedControl c).take maxLength))⟩

/-- Fuel-indexed worker for `stripTags`; the fuel is an upper bound on
the number of characters left, so the `0, _ :: _` case is unreachable
when called with `fuel = l.length`. -/
def stripTagsAux : Nat → List Char → List Char
  | 0, l => l
  | fuel + 1, [] => []
  | fuel + 1, '<' :: rest =>
    if rest.contains '>' then
      stripTagsAux fuel ((rest.dropWhile fun c => c ≠ '>').drop 1)
    else '<' :: stripTagsAux fuel rest
  | fuel + 1, c :: rest => c :: stripTagsAux fuel rest

/-- Remove every `<[^>]*>` tag (the first regex replace of
`sanitizeHtml`): on a `<`, if a later `>` exists, drop through it and
continue; a `<` with no closing `>` does not match the regex and is
kept. -/
def stripTags (l : List Char) : List Char := stripTagsAux l.length l

/-- The HTML escape map of `sanitizeHtml`. -/
def htmlEscape (c : Char) : List Char :=
  if c = '&' then "&amp;".toList
  else if c = '<' then "&lt;".toList
  else if c = '>' then "&gt;".toList
  else if c = '"' then "&quot;".toList
  else if c = '\'' then "&#x27;".toList
  else if c = '/' then "&#x2F;".toList
  else [c]

/-- Sanitizer `sanitizeHtml`: strip tags, escape special characters, cap at 5000
characters, trim. -/
def sanitizeHtml (input : String) : String :=
  ⟨jsTrim ((((stripTags input.toList).map htmlEscape).flatten).take 5000)⟩

/-- Validator `isValidDonationAmount`: a (finite, non-`NaN`) number between
10,000 and 1,000,000,000 inclusive. -/
def isValidDonationAmount (amount : Int) : Bool :=
  if amount < 10000 then false
  else if amount > 1000000000 then false
  else true

/-! ## Paginated public feeds (`handleGetDonations`,
`handleGetDisbursementsPublic`) -/

/-- The `pagination` object included in both feed responses. -/
structure Pagination where
  page : Int
  limit : Int
  total_count : Int
  total_pages : Int
  has_next : Bool
  has_prev : Bool
  deriving DecidableEq

/-- The result of a feed handler: a 400 `VALIDATION_ERROR` (invalid
pagination parameters) or a 200 body. -/
inductive FeedResult (α : Type) where
  | badRequest : FeedResult α
  | ok (body : α) : FeedResult α

/-- Per-row redaction of the public donation feed (donations.js lines
121-140): keep only amount, created_at, a name that is replaced by the
placeholder when the row is anonymous, and the message when truthy. -/
def sanitizeDonation (d : Donation) : List (String × Json) :=
  [("amount", Json.num d.amount), ("created_at", Json.str d.created_at)] ++
    [("name", if d.anonymous ≠ 0 then Json.str "Donatur Anonim" else Json.str d.name)] ++
    (if truthyStr d.message then [("message", Json.str (d.message.getD ""))] else [])

/-- Body of the `GET /api/donations` response. -/
structure DonationsBody where
  donations : List (List (String × Json))
  pagination : Pagination

/-- Handler `handleGetDonations`: parse `page`/`limit` with defaults 1/10, reject
out-of-range values with a 400, then serve the requested slice of the
`status = 'success'` rows (most recent first; row order is inherited
from the input list, standing in for `ORDER BY created_at DESC`). -/
def handleGetDonations (qpage qlimit : QueryParam) (db : List Donation) :
    FeedResult DonationsBody :=
  let page := jsParseIntOr qpage 1
  let limit := jsParseIntOr qlimit 10
  let offset := (page - 1) * limit
  if page < 1 ∨ limit < 1 ∨ limit > 100 then .badRequest
  else
    let successRows := db.filter fun d => d.status = "success"
    let totalCount : Int := successRows.length
    let totalPages := mathCeilDiv totalCount limit
    let rows := (successRows.drop offset.toNat).take limit.toNat
    .ok
      { donations := rows.map sanitizeDonation
        pagination :=
          { page := page, limit := limit, total_count := totalCount
            total_pages := totalPages
            has_next := page < totalPages, has_prev := page > 1 } }

/-- Body of the `GET /api/disbursements` response.  The per-row
enrichment with activities and files (nested sequential fetches) does
not affect pagination and is not modelled. -/
structure DisbursementsBody where
  disbursements : List Disbursement
  pagination : Pagination

/-- Handler `handleGetDisbursementsPublic`: identical pagination logic over the
`disbursements` table (no status filter). -/
def handleGetDisbursementsPublic (qpage qlimit : QueryParam)
    (ds : List Disbursement) : FeedResult DisbursementsBody :=
  let page := jsParseIntOr qpage 1
  let limit := jsParseIntOr qlimit 10
  let offset := (page - 1) * limit
  if page < 1 ∨ limit < 1 ∨ limit > 100 then .badRequest
  else
    let totalCount : Int := ds.length
    let totalPages := mathCeilDiv totalCount limit
    let rows := (ds.drop offset.toNat).take limit.toNat
    .ok
      { disbursements := rows
        pagination :=
          { page := page, limit := limit, total_count := totalCount
            total_pages := totalPages
            has_next := page < totalPages, has_prev := page > 1 } }

/-- Projection of a donations-feed result onto its pagination object. -/
def donationsPagination : FeedResult DonationsBody → Option Pagination
  | .badRequest => none
  | .ok b => some b.pagination

/-- Projection of a disbursements-feed result onto its pagination
object. -/
def disbursementsPagination : FeedResult DisbursementsBody → Option Pagination
  | .badRequest => none
  | .ok b => some b.pagination

/-! ## Donation creation (`handleCreateDonation`) -/

/-- The JSON body of a `POST /api/donations` request (fields may be
absent).  The amount is a JavaScript number; it is modelled as an
integer, which covers every value the specification discusses. -/
structure CreateRequest where
  name : Option String
  email : Option String
  phone : Option String
  amount : Option Int
  message : Option String
  anonymous : Bool
  deriving DecidableEq

/-- The response of `handleCreateDonation`, by the `errors.js`
constructor used (or the success body). -/
inductive CreateResponse where
  | validationError (message : String)
  | missingField (field : String)
  | externalServiceError (service message : String)
  | ok (donation_id : Nat) (order_id : String) (payment_url : String)
  deriving DecidableEq

/-- HTTP status code of a `CreateResponse` (per `utils/errors.js`). -/
def createStatusCode : CreateResponse → Nat
  | .validationError _ => 400
  | .missingField _ => 400
  | .externalServiceError _ _ => 500
  | .ok _ _ _ => 200

/-- Side effects of a `POST /api/donations` request: the donation rows
written (in their final state) and the `gross_amount` values sent to the
payment gateway. -/
structure CreateEffects where
  inserted : List Donation
  gatewayAmounts : List Int
  deriving DecidableEq

/-- No rows written, no gateway calls. -/
def noEffects : CreateEffects := { inserted := [], gatewayAmounts := [] }

/-- Handler `handleCreateDonation` (donations.js lines 259-296): the function
body begins with an unconditional
`return Errors.VALIDATION_ERROR("Donasi saat ini ditutup. ...")`
(comment in source: "Donations are closed"), so every request — before
its body is even parsed — receives this 400 response and nothing is
written or sent. -/
def handleCreateDonation (req : CreateRequest) (db : List Donation) :
    CreateResponse × CreateEffects :=
  (.validationError "Donasi saat ini ditutup. Terima kasih atas dukungan Anda.",
    noEffects)

/-- Fee model of `Math.ceil(donationAmount * 0.007)` (donations.js line 300),
modelled in exact arithmetic: the ceiling of `7 * a / 1000`
(`donationFee_eq_ceil` below identifies it with `⌈a * (7/1000)⌉` over
`ℚ`). -/
def donationFee (a : Int) : Int := mathCeilDiv (7 * a) 1000

/-- Total `totalAmount = donationAmount + fee` (donations.js line 301). -/
def donationTotalAmount (a : Int) : Int := a + donationFee a

/-- A parsed Midtrans Snap session response. -/
structure MidtransSession where
  token : Option String
  redirect_url : Option String
  deriving DecidableEq

/-- JavaScript `midtransResponse.redirect_url || fallback` (`||` on strings:
`undefined` and `""` are falsy). -/
def jsOrStr (x : Option String) (d : String) : String :=
  match x with
  | none => d
  | some s => if s = "" then d else s

/-- The remainder of the `handleCreateDonation` body (donations.js lines
268-383), which the early "donations closed" return makes unreachable.
It is embedded separately so that the validation rules, the fee
computation and the would-be writes can still be analysed.  `now` stands
for `Date.now()`; `gateway` for the (possibly failed) Midtrans call,
which the code treats as failed when the response is `null` or carries
no truthy `token`. -/
def createDonationBody (req : CreateRequest) (db : List Donation)
    (now : Nat) (gateway : Option MidtransSession) :
    CreateResponse × CreateEffects :=
  if ¬ truthyStr req.name ∨ ¬ truthyStr req.email ∨ ¬ truthyInt req.amount then
    (.missingField "name, email, or amount", noEffects)
  else if ¬ isValidEmail (req.email.getD "") then
    (.validationError "Invalid email format", noEffects)
  else if truthyStr req.phone ∧ ¬ isValidPhone (req.phone.getD "") then
    (.validationError "Invalid phone number format", noEffects)
  else if ¬ isValidDonationAmount (req.amount.getD 0) then
    (.validationError "Amount must be between Rp 10,000 and Rp 1,000,000,000",
      noEffects)
  else
    let donationAmount := req.amount.getD 0
    let fee := donationFee donationAmount
    let totalAmount := donationAmount + fee
    let donationId := db.length + 1
    let orderId := s!"DONATION-{donationId}-{now}"
    let row : Donation :=
      { name := sanitizeText (req.name.getD "") 255
        email := (jsTrim (req.email.getD "").toList : List Char) |>
          (fun l => String.toLower ⟨l⟩)
        phone := if truthyStr req.phone then
            some (sanitizeText (req.phone.getD "") 20) else none
        amount := donationAmount
        message := if truthyStr req.message then
            some (sanitizeHtml (req.message.getD "")) else none
        anonymous := if req.anonymous then 1 else 0
        status := "pending"
        midtrans_order_id := some orderId
        created_at := "" }
    match gateway with
    | none =>
      (.externalServiceError "Midtrans" "Payment initialization failed",
        { inserted := [{ row with status := "failed" }],
          gatewayAmounts := [totalAmount] })
    | some sess =>
      if ¬ truthyStr sess.token then
        (.externalServiceError "Midtrans" "Payment initialization failed",
          { inserted := [{ row with status := "failed" }],
            gatewayAmounts := [totalAmount] })
      else
        (.ok donationId orderId
          (jsOrStr sess.redirect_url
            (s!"https://app.sandbox.midtrans.com/snap/v2/vtweb/" ++
              sess.token.getD "")),
          { inserted := [row], gatewayAmounts := [totalAmount] })

/-! ## Router response post-processing (functions/api/[[path]].js,
lines 148-179) -/

/-- A route handler's response as the router sees it: status, whether
the `Content-Type` header includes `json`, and the body — `some j` when
`response.json()` succeeds with value `j`, `none` when the body is not
parseable JSON. -/
structure InnerResponse where
  status : Nat
  contentTypeJson : Bool
  body : Option Json

/-- The response after the router's post-processing: the body (rebuilt
or passed through) and the `X-Request-ID` header value. -/
structure FinalResponse where
  status : Nat
  xRequestId : Option String
  body : Option Json

/-- The own enumerable properties contributed by `{...v}`: an object
spreads its fields, an array its elements under their decimal index
keys, a string its characters under index keys, and `null`, booleans and
numbers contribute nothing. -/
def jsSpreadFields : Json → List (String × Json)
  | .obj fields => fields
  | .arr xs => (List.range xs.length).zip xs |>.map fun p => (toString p.1, p.2)
  | .str s => (List.range s.length).zip s.toList |>.map
      fun p => (toString p.1, Json.str (String.singleton p.2))
  | .null => []
  | .bool _ => []
  | .num _ => []

/-- Object literal `{...fields, k: v}`: if `k` is already a key it keeps its position
and receives the new value, otherwise the pair is appended. -/
def setField (fields : List (String × Json)) (k : String) (v : Json) :
    List (String × Json) :=
  if fields.any fun p => p.1 = k then
    fields.map fun p => if p.1 = k then (k, v) else p
  else fields ++ [(k, v)]

/-- The router's response post-processing: always set the `X-Request-ID`
header; when the content type includes `json` and the body parses,
replace the body by `JSON.stringify({...body, request_id: requestId})`;
otherwise pass the body through unchanged. -/
def routerFinalize (requestId : String) (resp : InnerResponse) : FinalResponse :=
  if resp.contentTypeJson then
    match resp.body with
    | some j =>
      { status := resp.status, xRequestId := some requestId
        body := some (Json.obj (setField (jsSpreadFields j) "request_id"
          (Json.str requestId))) }
    | none =>
      { status := resp.status, xRequestId := some requestId, body := none }
  else
    { status := resp.status, xRequestId := some requestId, body := resp.body }

/-! ## Claim-side definitions and shared lemmas -/

/-- The per-row status transition as the specification words it
(for comparison with `applyWebhook`, which follows the code's shape):
the donation matched by order id goes to `success` on
`capture`/`settlement`, to `failed` on `cancel`/`deny`/`expire`, and is
untouched otherwise; only matched rows under `fraud_status = "accept"`
move, and only their `status` field. -/
def webhookClaimRow (n : MidtransNotification) (d : Donation) : Donation :=
  if d.midtrans_order_id = some n.order_id ∧ n.fraud_status = "accept" then
    if n.transaction_status = "capture" ∨ n.transaction_status = "settlement" then
      { d with status := "success" }
    else if n.transaction_status = "cancel" ∨ n.transaction_status = "deny" ∨
        n.transaction_status = "expire" then
      { d with status := "failed" }
    else d
  else d

theorem jsOrZero_eq (x : Int) : jsOrZero x = x := by
  unfold jsOrZero
  split <;> simp_all

theorem updateStatusByOrderId_idem (st orderId : String) (db : List Donation) :
    updateStatusByOrderId st orderId (updateStatusByOrderId st orderId db) =
      updateStatusByOrderId st orderId db := by
  unfold updateStatusByOrderId
  rw [List.map_map]
  refine List.map_congr_left fun d _ => ?_
  by_cases h : d.midtrans_order_id = some orderId <;> simp [h]

/-! ## C3 -/

/-- C3: for every webhook notification, `applyWebhook` acts row-wise as
the specified state machine (`webhookClaimRow`): the rows matched by
order id move to `success` on `capture`/`settlement` and to `failed` on
`cancel`/`deny`/`expire` when `fraud_status = "accept"`, with every
other field untouched; and for any other `transaction_status`, or any
`fraud_status` other than `"accept"`, the database is left entirely
unchanged. -/
theorem webhook_status_transition (n : MidtransNotification) (db : List Donation) :
    applyWebhook n db = db.map (webhookClaimRow n) ∧
    (¬ (n.fraud_status = "accept" ∧
        (n.transaction_status = "capture" ∨ n.transaction_status = "settlement" ∨
          n.transaction_status = "cancel" ∨ n.transaction_status = "deny" ∨
          n.transaction_status = "expire")) →
      applyWebhook n db = db) := by
  constructor
  · unfold applyWebhook
    by_cases hf : n.fraud_status = "accept"
    · by_cases h1 : n.transaction_status = "capture" ∨ n.transaction_status = "settlement"
      · rw [if_pos hf, if_pos h1]
        unfold updateStatusByOrderId
        refine List.map_congr_left fun d _ => ?_
        by_cases hm : d.midtrans_order_id = some n.order_id <;>
          simp [webhookClaimRow, hm, hf, h1]
      · by_cases h2 : n.transaction_status = "cancel" ∨ n.transaction_status = "deny" ∨
            n.transaction_status = "expire"
        · rw [if_pos hf, if_neg h1, if_pos h2]
          unfold updateStatusByOrderId
          refine List.map_congr_left fun d _ => ?_
          by_cases hm : d.midtrans_order_id = some n.order_id <;>
            simp [webhookClaimRow, hm, hf, h1, h2]
        · rw [if_pos hf, if_neg h1, if_neg h2]
          refine Eq.symm ?_
          calc db.map (webhookClaimRow n)
              = db.map id := List.map_congr_left fun d _ => by
                simp only [webhookClaimRow, if_neg h1, if_neg h2, id_eq]
                split <;> rfl
            _ = db := List.map_id db
    · rw [if_neg hf]
      refine Eq.symm ?_
      calc db.map (webhookClaimRow n)
          = db.map id := List.map_congr_left fun d _ => by
            simp [webhookClaimRow, hf]
        _ = db := List.map_id db
  · intro h
    unfold applyWebhook
    by_cases hf : n.fraud_status = "accept"
    · have h5 : ¬ (n.transaction_status = "capture" ∨ n.transaction_status = "settlement" ∨
          n.transaction_status = "cancel" ∨ n.transaction_status = "deny" ∨
          n.transaction_status = "expire") := fun hx => h ⟨hf, hx⟩
      rw [if_pos hf, if_neg (fun hx => h5 (by tauto)), if_neg (fun hx => h5 (by tauto))]
    · rw [if_neg hf]

/-! ## C4 -/

/-- C4: processing the same webhook notification twice leaves the
donation table exactly as processing it once — both for the pure state
transition `applyWebhook` and through the handler (with no database
failure involved), for every notification and every database state. -/
theorem webhook_idempotent (n : MidtransNotification) (req : WebhookRequest)
    (db : List Donation) :
    applyWebhook n (applyWebhook n db) = applyWebhook n db ∧
    (handleMidtransWebhook req (handleMidtransWebhook req db false).2 false).2 =
      (handleMidtransWebhook req db false).2 := by
  have key : ∀ m : MidtransNotification, ∀ s : List Donation,
      applyWebhook m (applyWebhook m s) = applyWebhook m s := by
    intro m s
    unfold applyWebhook
    by_cases hf : m.fraud_status = "accept"
    · by_cases h1 : m.transaction_status = "capture" ∨ m.transaction_status = "settlement"
      · simp only [if_pos hf, if_pos h1, updateStatusByOrderId_idem]
      · by_cases h2 : m.transaction_status = "cancel" ∨ m.transaction_status = "deny" ∨
            m.transaction_status = "expire"
        · simp only [if_pos hf, if_neg h1, if_pos h2, updateStatusByOrderId_idem]
        · simp only [if_pos hf, if_neg h1, if_neg h2]
    · simp only [if_neg hf]
  refine ⟨key n db, ?_⟩
  cases req with
  | malformed => rfl
  | ok m => simpa [handleMidtransWebhook] using key m db

/-! ## C5 -/

/-- C5: the webhook endpoint answers HTTP 200 on every execution path —
for malformed payloads (the JSON parse throws and the `catch` answers
200), for any notification content, and when the database update itself
throws. -/
theorem webhook_always_200 (req : WebhookRequest) (db : List Donation)
    (dbThrows : Bool) :
    (handleMidtransWebhook req db dbThrows).1 = 200 := by
  cases req with
  | malformed => rfl
  | ok n => by_cases h : dbThrows <;> simp [handleMidtransWebhook, h]

/-! ## C6 -/

/-- C6: `total_raised` is the sum of the amounts of exactly the
`status = "success"` rows and `donor_count` is the number of those rows;
prepending any donation whose status is `pending` or `failed` changes
neither (nor `total_disbursed`). -/
theorem stats_success_only (db : List Donation) (ds : List Disbursement) :
    (handleStats db ds).total_raised =
      ((db.filter fun d => d.status = "success").map fun d => d.amount).sum ∧
    (handleStats db ds).donor_count =
      ((db.filter fun d => d.status = "success").length : Int) ∧
    (∀ d : Donation, d.status = "pending" ∨ d.status = "failed" →
      handleStats (d :: db) ds = handleStats db ds) := by
  refine ⟨?_, ?_, ?_⟩
  · simp [handleStats, jsOrZero_eq, sqlSumAmountWhereStatus]
  · simp [handleStats, jsOrZero_eq, sqlCountWhereStatus]
  · intro d hd
    have hne : ¬ d.status = "success" := by
      rcases hd with h | h <;> simp [h]
    simp [handleStats, sqlSumAmountWhereStatus, sqlCountWhereStatus,
      List.filter_cons, hne]

/-- A sample pending donation row. -/
def sampleDonation : Donation :=
  { name := "Siti", email := "siti@example.com", phone := none, amount := 50000
    message := none, anonymous := 0, status := "pending"
    midtrans_order_id := some "DONATION-1-123", created_at := "2025-12-01" }

theorem webhook_status_transition_witness :
    applyWebhook
        { order_id := "DONATION-1-123", transaction_status := "settlement"
          fraud_status := "challenge" } [sampleDonation] = [sampleDonation] ∧
    applyWebhook
        { order_id := "DONATION-1-123", transaction_status := "settlement"
          fraud_status := "accept" } [sampleDonation] =
      [sampleDonation].map (webhookClaimRow
        { order_id := "DONATION-1-123", transaction_status := "settlement"
          fraud_status := "accept" }) :=
  ⟨(webhook_status_transition _ _).2 (by decide), (webhook_status_transition _ _).1⟩

theorem stats_success_only_witness :
    handleStats [sampleDonation] [] = handleStats [] [] :=
  (stats_success_only [] []).2.2 sampleDonation (Or.inl rfl)

/-! ## C7 -/

theorem mathCeilDiv_eq_ceil (a b : Int) (hb : 0 < b) :
    mathCeilDiv a b = ⌈(a : ℚ) / b⌉ := by
  obtain ⟨m, rfl⟩ : ∃ m : ℕ, b = (m : ℤ) := ⟨b.toNat, (Int.toNat_of_nonneg hb.le).symm⟩
  unfold mathCeilDiv
  rw [← Rat.floor_intCast_div_natCast (-a) m,
    show ((-a : ℤ) : ℚ) / ((m : ℕ) : ℚ) = -((a : ℚ) / (((m : ℤ) : ℤ) : ℚ)) by
      push_cast; ring,
    Int.floor_neg]
  simp

/-- C7: in both paginated feeds, absent `page`/`limit` parameters
default to 1 and 10; an effective page below 1 or limit outside (0,100]
is answered with the 400 validation error; otherwise the response's
pagination carries the effective page and limit, `total_count` is the
row count, `total_pages = ceil(total_count / limit)` (with `mathCeilDiv`
agreeing with the rational ceiling for positive limits), `has_next`
is `page < total_pages`, `has_prev` is `page > 1`, and the rows served
are the slice at offset `(page - 1) * limit` of length `limit`. -/
theorem feed_pagination (qp ql : QueryParam) (db : List Donation)
    (ds : List Disbursement) :
    (jsParseIntOr QueryParam.absent 1 = 1 ∧ jsParseIntOr QueryParam.absent 10 = 10) ∧
    (∀ a b : Int, 0 < b → mathCeilDiv a b = ⌈(a : ℚ) / b⌉) ∧
    ((jsParseIntOr qp 1 < 1 ∨ jsParseIntOr ql 10 < 1 ∨ jsParseIntOr ql 10 > 100) →
      handleGetDonations qp ql db = .badRequest ∧
      handleGetDisbursementsPublic qp ql ds = .badRequest) ∧
    (¬ (jsParseIntOr qp 1 < 1 ∨ jsParseIntOr ql 10 < 1 ∨ jsParseIntOr ql 10 > 100) →
      (∃ b, handleGetDonations qp ql db = .ok b ∧
        b.pagination.page = jsParseIntOr qp 1 ∧
        b.pagination.limit = jsParseIntOr ql 10 ∧
        b.pagination.total_count =
          ((db.filter fun d => d.status = "success").length : Int) ∧
        b.pagination.total_pages = mathCeilDiv b.pagination.total_count b.pagination.limit ∧
        b.pagination.has_next = decide (b.pagination.page < b.pagination.total_pages) ∧
        b.pagination.has_prev = decide (1 < b.pagination.page) ∧
        b.donations = (((db.filter fun d => d.status = "success").drop
            ((jsParseIntOr qp 1 - 1) * jsParseIntOr ql 10).toNat).take
              (jsParseIntOr ql 10).toNat).map sanitizeDonation) ∧
      (∃ b, handleGetDisbursementsPublic qp ql ds = .ok b ∧
        b.pagination.page = jsParseIntOr qp 1 ∧
        b.pagination.limit = jsParseIntOr ql 10 ∧
        b.pagination.total_count = (ds.length : Int) ∧
        b.pagination.total_pages = mathCeilDiv b.pagination.total_count b.pagination.limit ∧
        b.pagination.has_next = decide (b.pagination.page < b.pagination.total_pages) ∧
        b.pagination.has_prev = decide (1 < b.pagination.page) ∧
        b.disbursements = (ds.drop
            ((jsParseIntOr qp 1 - 1) * jsParseIntOr ql 10).toNat).take
              (jsParseIntOr ql 10).toNat)) := by
  refine ⟨⟨rfl, rfl⟩, mathCeilDiv_eq_ceil, ?_, ?_⟩
  · intro h
    constructor
    · unfold handleGetDonations
      rw [if_pos h]
    · unfold handleGetDisbursementsPublic
      rw [if_pos h]
  · intro h
    constructor
    · obtain ⟨b, hb⟩ : ∃ b, handleGetDonations qp ql db = .ok b := by
        unfold handleGetDonations
        rw [if_neg h]
        exact ⟨_, rfl⟩
      have hb2 := hb
      unfold handleGetDonations at hb2
      rw [if_neg h] at hb2
      cases hb2
      exact ⟨_, hb, rfl, rfl, rfl, rfl, rfl, rfl, rfl⟩
    · obtain ⟨b, hb⟩ : ∃ b, handleGetDisbursementsPublic qp ql ds = .ok b := by
        unfold handleGetDisbursementsPublic
        rw [if_neg h]
        exact ⟨_, rfl⟩
      have hb2 := hb
      unfold handleGetDisbursementsPublic at hb2
      rw [if_neg h] at hb2
      cases hb2
      exact ⟨_, hb, rfl, rfl, rfl, rfl, rfl, rfl, rfl⟩

/-- A sample successful donation row (for concrete instances). -/
def sampleSuccessRow (i : Nat) : Donation :=
  { name := s!"Donor {i}", email := "donor@example.com", phone := none
    amount := 10000, message := none, anonymous := 0, status := "success"
    midtrans_order_id := none, created_at := toString i }

/-- Twenty-five successful donation rows. -/
def db25 : List Donation := (List.range 25).map sampleSuccessRow

theorem feed_pagination_witness :
    handleGetDonations (QueryParam.num (-1)) QueryParam.absent db25 =
      FeedResult.badRequest ∧
    donationsPagination (handleGetDonations (QueryParam.num 3) QueryParam.absent db25) =
      some { page := 3, limit := 10, total_count := 25, total_pages := 3
             has_next := false, has_prev := true } ∧
    donationsPagination (handleGetDonations (QueryParam.num 1) QueryParam.absent db25) =
      some { page := 1, limit := 10, total_count := 25, total_pages := 3
             has_next := true, has_prev := false } := by
  refine ⟨((feed_pagination (QueryParam.num (-1)) QueryParam.absent db25 []).2.2.1
    (by decide)).1, ?_, ?_⟩
  · obtain ⟨b, hb, h1, h2, h3, h4, h5, h6, -⟩ :=
      ((feed_pagination (QueryParam.num 3) QueryParam.absent db25 []).2.2.2
        (by decide)).1
    rw [hb]
    obtain ⟨dons, p, l, tc, tp, hn, hp⟩ := b
    dsimp only at h1 h2 h3 h4 h5 h6
    subst h1 h2 h3 h4 h5 h6
    simp only [donationsPagination]
    decide
  · obtain ⟨b, hb, h1, h2, h3, h4, h5, h6, -⟩ :=
      ((feed_pagination (QueryParam.num 1) QueryParam.absent db25 []).2.2.2
        (by decide)).1
    rw [hb]
    obtain ⟨dons, p, l, tc, tp, hn, hp⟩ := b
    dsimp only at h1 h2 h3 h4 h5 h6
    subst h1 h2 h3 h4 h5 h6
    simp only [donationsPagination]
    decide

/-! ## C10 -/

/-- C10: a `page=0`, `limit=0` or non-numeric page/limit query value is
silently replaced by the defaults (1 and 10) before the range check, so
the 400 branch is reachable only for negative numeric `page` (resp.
negative or over-100 numeric `limit`), and `page=0` serves page 1. -/
theorem zero_param_defaults (d : Int) (db : List Donation) (ds : List Disbursement) :
    jsParseIntOr (QueryParam.num 0) d = d ∧
    jsParseIntOr QueryParam.nonNumeric d = d ∧
    jsParseIntOr QueryParam.absent d = d ∧
    (∀ qp : QueryParam, jsParseIntOr qp 1 < 1 →
      ∃ n, qp = QueryParam.num n ∧ n < 0) ∧
    (∀ ql : QueryParam, jsParseIntOr ql 10 < 1 ∨ jsParseIntOr ql 10 > 100 →
      ∃ n, ql = QueryParam.num n ∧ (n < 0 ∨ n > 100)) ∧
    handleGetDonations (QueryParam.num 0) (QueryParam.num 0) db =
      handleGetDonations QueryParam.absent QueryParam.absent db ∧
    handleGetDisbursementsPublic (QueryParam.num 0) (QueryParam.num 0) ds =
      handleGetDisbursementsPublic QueryParam.absent QueryParam.absent ds ∧
    ((donationsPagination (handleGetDonations (QueryParam.num 0) QueryParam.absent db)).map
      fun p => p.page) = some 1 := by
  refine ⟨rfl, rfl, rfl, ?_, ?_, rfl, rfl, rfl⟩
  · intro qp h
    cases qp with
    | absent => simp [jsParseIntOr] at h
    | nonNumeric => simp [jsParseIntOr] at h
    | num n =>
      by_cases h0 : n = 0
      · simp [jsParseIntOr, h0] at h
      · refine ⟨n, rfl, ?_⟩
        simp only [jsParseIntOr, if_neg h0] at h
        omega
  · intro ql h
    cases ql with
    | absent => simp [jsParseIntOr] at h
    | nonNumeric => simp [jsParseIntOr] at h
    | num n =>
      by_cases h0 : n = 0
      · simp [jsParseIntOr, h0] at h
      · refine ⟨n, rfl, ?_⟩
        simp only [jsParseIntOr, if_neg h0] at h
        omega

theorem zero_param_defaults_witness :
    jsParseIntOr (QueryParam.num 0) 7 = 7 ∧
    jsParseIntOr QueryParam.nonNumeric 10 = 10 ∧
    handleGetDonations (QueryParam.num 0) (QueryParam.num 0) [sampleDonation] =
      handleGetDonations QueryParam.absent QueryParam.absent [sampleDonation] ∧
    ((donationsPagination (handleGetDonations (QueryParam.num 0) QueryParam.absent
      [sampleDonation])).map fun p => p.page) = some 1 :=
  ⟨(zero_param_defaults 7 [] []).1,
    (zero_param_defaults 10 [] []).2.1,
    (zero_param_defaults 7 [sampleDonation] []).2.2.2.2.2.1,
    (zero_param_defaults 7 [sampleDonation] []).2.2.2.2.2.2.2⟩

/-! ## C8 -/

/-- C8: no rendered donation-feed entry carries an `email` or `phone`
key, whatever the stored values; the rendered `name` is the fixed
placeholder `"Donatur Anonim"` exactly when the row's anonymous flag is
truthy and the stored name verbatim otherwise; and every entry of a feed
response is the redaction of some row of the database. -/
theorem feed_redaction (qp ql : QueryParam) (db : List Donation)
    (b : DonationsBody) (hb : handleGetDonations qp ql db = .ok b) :
    (∀ d : Donation,
      ("email" ∉ (sanitizeDonation d).map Prod.fst) ∧
      ("phone" ∉ (sanitizeDonation d).map Prod.fst) ∧
      (sanitizeDonation d).lookup "name" =
        some (if d.anonymous ≠ 0 then Json.str "Donatur Anonim"
          else Json.str d.name)) ∧
    (∀ e ∈ b.donations, ∃ d, d ∈ db ∧ e = sanitizeDonation d) := by
  constructor
  · intro d
    refine ⟨?_, ?_, ?_⟩
    · by_cases hm : truthyStr d.message <;> simp [sanitizeDonation, hm]
    · by_cases hm : truthyStr d.message <;> simp [sanitizeDonation, hm]
    · by_cases hm : truthyStr d.message <;>
        simp [sanitizeDonation, hm, List.lookup]
  · intro e he
    have hb2 := hb
    unfold handleGetDonations at hb2
    by_cases hcond : (jsParseIntOr qp 1 < 1 ∨ jsParseIntOr ql 10 < 1 ∨
        jsParseIntOr ql 10 > 100)
    · rw [if_pos hcond] at hb2
      cases hb2
    · rw [if_neg hcond] at hb2
      cases hb2
      dsimp only at he
      rw [List.mem_map] at he
      obtain ⟨d, hd, rfl⟩ := he
      refine ⟨d, ?_, rfl⟩
      exact List.mem_of_mem_filter
        (List.mem_of_mem_drop (List.mem_of_mem_take hd))

/-- An anonymous successful donation row with stored personal data. -/
def anonRow : Donation :=
  { name := "Siti", email := "siti@example.com", phone := some "081234567890"
    amount := 50000, message := none, anonymous := 1, status := "success"
    midtrans_order_id := some "DONATION-2-456", created_at := "2025-12-02" }

theorem feed_redaction_witness :
    ("email" ∉ (sanitizeDonation anonRow).map Prod.fst) ∧
    ("phone" ∉ (sanitizeDonation anonRow).map Prod.fst) ∧
    (sanitizeDonation anonRow).lookup "name" = some (Json.str "Donatur Anonim") := by
  have h := (feed_redaction QueryParam.absent QueryParam.absent []
    { donations := []
      pagination := { page := 1, limit := 10, total_count := 0, total_pages := 0
                      has_next := false, has_prev := false } } rfl).1 anonRow
  exact ⟨h.1, h.2.1, h.2.2⟩

/-! ## C1 -/

/-- C1 (amended): every `POST /api/donations` request — whether or not
its body would pass validation — receives the fixed 400
`VALIDATION_ERROR` "Donasi saat ini ditutup…" produced by the
unconditional early return, and no donation row is written and no
gateway call is made. -/
theorem donations_closed (req : CreateRequest) (db : List Donation) :
    handleCreateDonation req db =
      (CreateResponse.validationError
        "Donasi saat ini ditutup. Terima kasih atas dukungan Anda.", noEffects) ∧
    createStatusCode (handleCreateDonation req db).1 = 400 ∧
    (handleCreateDonation req db).2.inserted = [] ∧
    (handleCreateDonation req db).2.gatewayAmounts = [] :=
  ⟨rfl, rfl, rfl, rfl⟩

/-- A donation request that passes every validation rule of the
(disabled) creation path. -/
def validReq : CreateRequest :=
  { name := some "Budi", email := some "budi@example.com"
    phone := some "081234567890", amount := some 50000, message := none
    anonymous := false }

/-- C1 (counterexample): `validReq` passes validation — the disabled
remainder of the handler body would insert a `pending` row and answer
with donation id, order id and payment URL — yet the live handler
answers the 400 donations-closed error and writes nothing, contradicting
the claim that validated requests are inserted and answered with
`{donation_id, order_id, payment_url}`. -/
theorem donations_closed_counterexample :
    (createDonationBody validReq [] 1733000000000
        (some { token := some "token123"
                redirect_url := some "https://pay.example/redirect" })).1 =
      CreateResponse.ok 1 "DONATION-1-1733000000000" "https://pay.example/redirect" ∧
    ((createDonationBody validReq [] 1733000000000
        (some { token := some "token123"
                redirect_url := some "https://pay.example/redirect" })).2.inserted.map
      fun d => (d.amount, d.status)) = [(50000, "pending")] ∧
    (handleCreateDonation validReq []).1 =
      CreateResponse.validationError
        "Donasi saat ini ditutup. Terima kasih atas dukungan Anda." ∧
    createStatusCode (handleCreateDonation validReq []).1 = 400 ∧
    (handleCreateDonation validReq []).2 = noEffects := by
  refine ⟨?_, ?_, rfl, rfl, rfl⟩ <;> decide

/-! ## C2 -/

theorem donationFee_eq_ceil (a : Int) :
    donationFee a = ⌈(a : ℚ) * (7 / 1000)⌉ := by
  unfold donationFee
  rw [mathCeilDiv_eq_ceil (7 * a) 1000 (by norm_num)]
  congr 1
  push_cast
  ring

/-- C2 (amended): the live handler persists no amount and sends nothing
to the gateway (donations are closed); on the disabled creation path the
row would be inserted with amount exactly `a` (the fee is never added to
it), the gateway would receive `a + fee` with
`fee = ⌈a * 0.007⌉` in exact arithmetic, and in particular
`fee 10000 = 70`, `total 10000 = 10070`, `fee 999999 = 7000`,
`total 999999 = 1006999`. -/
theorem fee_excluded_from_stored_amount (req : CreateRequest)
    (db : List Donation) (now : Nat) (gw : Option MidtransSession) (a : Int)
    (ha : req.amount = some a)
    (hname : truthyStr req.name = true)
    (hemailT : truthyStr req.email = true)
    (hamtT : truthyInt req.amount = true)
    (hemail : isValidEmail (req.email.getD "") = true)
    (hphone : truthyStr req.phone = true → isValidPhone (req.phone.getD "") = true)
    (hamt : isValidDonationAmount a = true) :
    (handleCreateDonation req db).2 = noEffects ∧
    ((createDonationBody req db now gw).2.inserted.map fun d => d.amount) = [a] ∧
    (createDonationBody req db now gw).2.gatewayAmounts = [a + donationFee a] ∧
    donationFee a = ⌈(a : ℚ) * (7 / 1000)⌉ ∧
    donationFee 10000 = 70 ∧ donationTotalAmount 10000 = 10070 ∧
    donationFee 999999 = 7000 ∧ donationTotalAmount 999999 = 1006999 := by
  refine ⟨rfl, ?_, ?_, donationFee_eq_ceil a, by decide, by decide, by decide, by decide⟩
  all_goals
    unfold createDonationBody
    rw [if_neg (by simp [hname, hemailT, hamtT]), if_neg (by simp [hemail]),
      if_neg (fun hc => hc.2 (hphone hc.1)), if_neg (by simp [ha, hamt])]
    cases gw with
    | none => simp [ha]
    | some sess =>
      by_cases ht : truthyStr sess.token = true <;> simp [ha, ht]

/-- A valid donation request with amount 10000. -/
def validReq10k : CreateRequest :=
  { name := some "Ana", email := some "ana@example.com", phone := none
    amount := some 10000, message := none, anonymous := false }

/-- C2 (counterexample): `validReq10k` is a valid submission with amount
10000, for which the claim asserts a persisted amount of 10000 and a
gateway total of 10070; the disabled creation path would indeed do
exactly that, but the live handler persists nothing, calls no gateway,
and answers 400. -/
theorem fee_excluded_counterexample :
    ((createDonationBody validReq10k [] 1733000000001
        (some { token := some "tok", redirect_url := none })).2.inserted.map
      fun d => (d.amount, d.status)) = [(10000, "pending")] ∧
    (createDonationBody validReq10k [] 1733000000001
        (some { token := some "tok", redirect_url := none })).2.gatewayAmounts =
      [10070] ∧
    (handleCreateDonation validReq10k []).2.inserted = [] ∧
    (handleCreateDonation validReq10k []).2.gatewayAmounts = [] ∧
    createStatusCode (handleCreateDonation validReq10k []).1 = 400 := by
  refine ⟨?_, ?_, rfl, rfl, rfl⟩ <;> decide

theorem fee_excluded_witness :
    (handleCreateDonation validReq []).2 = noEffects ∧
    ((createDonationBody validReq [] 5 none).2.inserted.map fun d => d.amount) =
      [50000] ∧
    (createDonationBody validReq [] 5 none).2.gatewayAmounts =
      [50000 + donationFee 50000] ∧
    donationFee 50000 = ⌈((50000 : ℤ) : ℚ) * (7 / 1000)⌉ ∧
    donationFee 10000 = 70 ∧ donationTotalAmount 10000 = 10070 ∧
    donationFee 999999 = 7000 ∧ donationTotalAmount 999999 = 1006999 :=
  fee_excluded_from_stored_amount validReq [] 5 none 50000 rfl rfl rfl rfl
    (by decide) (fun _ => by decide) (by decide)

/-! ## C9 -/

/-- C9 (amended): the router attaches the request id as a header on
every response and preserves the status; a non-JSON response body and an
unparseable body pass through untouched; a parseable JSON body is
replaced by `JSON.stringify({...body, request_id})` — an **object**
keeps its fields with `request_id` injected, while an **array** is
spread into an object keyed by decimal indices with `request_id`
injected, so the array structure is *not* preserved. -/
theorem router_request_id_injection (rid : String) (resp : InnerResponse) :
    (routerFinalize rid resp).xRequestId = some rid ∧
    (routerFinalize rid resp).status = resp.status ∧
    (resp.contentTypeJson = false → (routerFinalize rid resp).body = resp.body) ∧
    (resp.contentTypeJson = true → resp.body = none →
      (routerFinalize rid resp).body = none) ∧
    (∀ fs, resp.contentTypeJson = true → resp.body = some (Json.obj fs) →
      (routerFinalize rid resp).body =
        some (Json.obj (setField fs "request_id" (Json.str rid)))) ∧
    (∀ xs, resp.contentTypeJson = true → resp.body = some (Json.arr xs) →
      (routerFinalize rid resp).body =
        some (Json.obj (setField
          ((List.range xs.length).zip xs |>.map fun p => (toString p.1, p.2))
          "request_id" (Json.str rid)))) := by
  obtain ⟨st, ctj, body⟩ := resp
  refine ⟨?_, ?_, ?_, ?_, ?_, ?_⟩
  · cases ctj <;> cases body <;> rfl
  · cases ctj <;> cases body <;> rfl
  · intro h
    subst h
    rfl
  · intro h hb
    subst h
    cases hb
    rfl
  · intro fs h hb
    subst h
    cases hb
    rfl
  · intro xs h hb
    subst h
    cases hb
    rfl

/-- The responses the admin disbursement endpoints actually produce are
JSON arrays; this is a minimal such inner response. -/
def arrayResponse : InnerResponse :=
  { status := 200, contentTypeJson := true, body := some (Json.arr [Json.num 5]) }

/-- C9 (counterexample): for a JSON **array** body the router does not
return the body unchanged — `{...body, request_id}` spreads the array
into an object with decimal index keys and an injected `request_id`. -/
theorem router_array_counterexample :
    (routerFinalize "req-1" arrayResponse).body =
      some (Json.obj [("0", Json.num 5), ("request_id", Json.str "req-1")]) ∧
    (routerFinalize "req-1" arrayResponse).body ≠ arrayResponse.body := by
  constructor
  · rfl
  · intro h
    rw [show (routerFinalize "req-1" arrayResponse).body =
      some (Json.obj [("0", Json.num 5), ("request_id", Json.str "req-1")]) from rfl] at h
    exact Json.noConfusion (Option.some.inj h)

theorem router_request_id_injection_witness :
    (routerFinalize "req-2" arrayResponse).body =
      some (Json.obj (setField
        ((List.range [Json.num 5].length).zip [Json.num 5] |>.map
          fun p => (toString p.1, p.2))
        "request_id" (Json.str "req-2"))) ∧
    (routerFinalize "req-2" arrayResponse).xRequestId = some "req-2" :=
  ⟨(router_request_id_injection "req-2" arrayResponse).2.2.2.2.2 [Json.num 5] rfl rfl,
    (router_request_id_injection "req-2" arrayResponse).1⟩

end Spec2Proof
